import Mathlib

/-!
Verification of the observable contract of `src/app.py`, a single-file
Streamlit application that uploads an HTML file, sends its decoded text
together with a mode-selected instruction to a remote text-generation
endpoint, and offers the reply for download as a PDF or a Word document.

External effects (the remote inference call, the PDF rendering binary,
the fallible filesystem steps of the Word serialization) are modelled as
oracles: each oracle value fixes the outcome (`Except.ok` result or
`Except.error` message, the message standing for a raised exception) of
the corresponding call.  Purely decorative UI widgets (page title,
subheader, the raw-HTML preview expander, the spinner) are not modelled;
the user-visible events that the claims speak about (success banner,
result preview, inline error messages, download buttons) are.
-/

/- ## Processing modes and prompt construction (app.py lines 74-113) -/

/-- The four options of the "Choose Action:" selectbox (app.py lines 74-77). -/
def modeOptions : List String :=
  ["Summarize Content", "Clean & Format", "Extract Key Data", "Custom Instruction"]

/-- The default text pre-filling the custom-prompt text area (app.py line 81). -/
def customDefaultText : String := "E.g., Translate to Spanish..."

/-- Value of the `custom_instruction` variable after the sidebar runs
(app.py lines 79-81): initialised to `""`; only in "Custom Instruction"
mode is the text area shown, returning the user's text, or its default
value `"E.g., Translate to Spanish..."` when the user typed nothing. -/
def custom_instruction_value (mode : String) (userText : Option String) : String :=
  if mode = "Custom Instruction" then
    match userText with
    | some t => t
    | none => customDefaultText
  else ""

/-- Prompt built on button press (app.py lines 98-113): an if/elif chain
selects `base_prompt` (the `else` branch takes the custom instruction),
then the f-string concatenates it with the fixed HTML-only directive and
the decoded document text. -/
def full_prompt (mode : String) (custom_instruction : String) (string_data : String) : String :=
  let base_prompt : String :=
    if mode = "Summarize Content" then
      "Summarize the following content into a professional report."
    else if mode = "Clean & Format" then
      "Clean up this content and format it nicely with headers and bullet points."
    else if mode = "Extract Key Data" then
      "Extract key metrics, dates, and names from this content."
    else
      custom_instruction
  base_prompt ++ "\n" ++
    "IMPORTANT: Output the result as clean HTML (using tags like <h3>, <p>, <ul>) so it can be converted to a document. Do not use Markdown blocks." ++
    "\n\nCONTENT:\n" ++ string_data

/-- The fixed directive demanding HTML-only output, as it appears inside
the prompt (app.py lines 110-111; the two adjacent Python string literals
concatenate, keeping the space after the closing parenthesis). -/
def html_directive : String :=
  "IMPORTANT: Output the result as clean HTML (using tags like <h3>, <p>, <ul>) so it can be converted to a document. Do not use Markdown blocks."

/-- Spec-side decomposition: the instruction segment of the prompt is the
mode's canned instruction for the three canned modes, or the custom text
verbatim in "Custom Instruction" mode. -/
def instruction_segment (mode : String) (custom_instruction : String) : String :=
  if mode = "Custom Instruction" then custom_instruction
  else if mode = "Summarize Content" then
    "Summarize the following content into a professional report."
  else if mode = "Clean & Format" then
    "Clean up this content and format it nicely with headers and bullet points."
  else
    "Extract key metrics, dates, and names from this content."

/- ## Word document model (app.py lines 39-58) -/

/-- A block-level element of the generated Word document: a heading with
its text and level, or a paragraph with its literal text. -/
inductive DocxBlock where
  | heading (text : String) (level : Nat)
  | paragraph (text : String)
deriving DecidableEq, Repr

/-- The document built by `convert_to_word` before serialization
(app.py lines 42-44): `doc.add_heading('Gemini Processed Report', 0)`
followed by `doc.add_paragraph(content)` — the reply text is inserted as
one undivided literal paragraph, with no parsing of its HTML. -/
def docxOf (content : String) : List DocxBlock :=
  [DocxBlock.heading "Gemini Processed Report" 0, DocxBlock.paragraph content]

/-- Texts of the paragraph blocks of a document. -/
def paragraphTexts (blocks : List DocxBlock) : List String :=
  blocks.filterMap fun b =>
    match b with
    | DocxBlock.paragraph t => some t
    | DocxBlock.heading _ _ => none

/-- Texts of the heading blocks of a document. -/
def headingTexts (blocks : List DocxBlock) : List String :=
  blocks.filterMap fun b =>
    match b with
    | DocxBlock.heading t _ => some t
    | DocxBlock.paragraph _ => none

/-- An injective byte encoding of a string (length, then code points),
used to model the `.docx` bytes `doc.save` writes to the temporary file. -/
def encodeString (s : String) : List Nat :=
  s.length :: s.toList.map Char.toNat

/-- Byte encoding of one block. -/
def serializeBlock : DocxBlock → List Nat
  | DocxBlock.heading t l => 0 :: l :: encodeString t
  | DocxBlock.paragraph t => 1 :: encodeString t

/-- The bytes `doc.save` writes for a whole document (abstract `.docx`
serialization; the claims only compare these bytes for equality). -/
def serializeDocx (blocks : List DocxBlock) : List Nat :=
  blocks.length :: (blocks.map serializeBlock).flatten

/- ## UI events and oracles for the external calls -/

/-- User-visible UI events produced during one button-press interaction. -/
inductive UIEvent where
  | successMsg (msg : String)
  | preview (text : String)
  | errorMsg (msg : String)
  | downloadButton (label : String) (data : List Nat) (fileName : String) (mime : String)
deriving DecidableEq, Repr

/-- Outcomes of the external calls during one interaction: the remote
inference call (`client.models.generate_content`, app.py line 117, as a
function of the prompt), the PDF renderer (`pdfkit.from_string`, app.py
line 34, as a function of the wrapped HTML), and the two fallible
filesystem steps of `convert_to_word` (`doc.save`, app.py line 48, and
the re-reading `open`/`read`, app.py lines 51-52).  `Except.error e`
stands for the call raising an exception whose display text is `e`. -/
structure Oracles where
  gen : String → Except String String
  pdfRender : String → Except String (List Nat)
  wordSave : Except String Unit
  wordRead : Except String Unit

/-- The HTML envelope `convert_to_pdf` wraps around the reply before
rendering (app.py lines 27-32, an f-string with its literal indentation
and newlines). -/
def pdfHtmlWrapper (content : String) : String :=
  "\n        <html>\n          <head><meta charset=\"UTF-8\"></head>\n          <body>" ++
    content ++ "</body>\n        </html>\n        "

/-- `convert_to_pdf` (app.py lines 23-37): wraps the content, calls the
renderer inside `try`, returns the PDF bytes; any exception is caught,
shown via `st.error(f"PDF Error: {e}")`, and `None` is returned. -/
def convert_to_pdf (render : String → Except String (List Nat)) (content : String) :
    Option (List Nat) × List UIEvent :=
  match render (pdfHtmlWrapper content) with
  | Except.ok bytes => (some bytes, [])
  | Except.error e => (none, [UIEvent.errorMsg ("PDF Error: " ++ e)])

/-- Result of `convert_to_word`: the returned value (`none` models the
`return None` of the except branch), the final state of the temporary
file on disk (`none` = absent, `some bytes` = present with content), and
the UI events emitted. -/
structure WordResult where
  result : Option (List Nat)
  tmpFile : Option (List Nat)
  events : List UIEvent
deriving DecidableEq, Repr

/-- `convert_to_word` (app.py lines 39-58): builds the document, creates
a `NamedTemporaryFile(delete=False)` (the file now exists, empty), saves
the document into it, re-opens it and reads the bytes back, unlinks it,
and returns the bytes.  Any exception is caught, shown via
`st.error(f"Word Error: {e}")`, and `None` is returned; no cleanup runs
on those paths, so the temporary file stays on disk with whatever
content it had when the exception was raised. -/
def convert_to_word (save : Except String Unit) (read : Except String Unit)
    (content : String) : WordResult :=
  let doc := docxOf content
  match save with
  | Except.error e =>
      { result := none, tmpFile := some [],
        events := [UIEvent.errorMsg ("Word Error: " ++ e)] }
  | Except.ok _ =>
      match read with
      | Except.error e =>
          { result := none, tmpFile := some (serializeDocx doc),
            events := [UIEvent.errorMsg ("Word Error: " ++ e)] }
      | Except.ok _ =>
          { result := some (serializeDocx doc), tmpFile := none, events := [] }

/- ## Download filename (app.py line 130: os.path.splitext) -/

/-- Path-separator test of `os.path.splitext` (`\x5c` for the primary
separator on Windows, `/` as the alternative one). -/
def isSep (c : Char) : Bool := c == '/' || c == '\\'

/-- Extension-separator test of `os.path.splitext`. -/
def isDot (c : Char) : Bool := c == '.'

/-- Index of the last element satisfying `pred`, or `none`
(CPython's `str.rfind` restricted to single characters). -/
def lastIndexOf (pred : Char → Bool) : List Char → Option Nat
  | [] => none
  | c :: cs =>
    match lastIndexOf pred cs with
    | some i => some (i + 1)
    | none => if pred c then some 0 else none

/-- `os.path.splitext`: split at the last dot after the last path
separator, except that a basename consisting of nothing but dots before
that last dot is not split (so dotfiles keep their name whole). -/
def splitext (p : String) : String × String :=
  let l := p.toList
  match lastIndexOf isDot l with
  | none => (p, "")
  | some d =>
    let start : Nat :=
      match lastIndexOf isSep l with
      | none => 0
      | some s => s + 1
    if start ≤ d then
      if (List.range (d - start)).any (fun j => !isDot (l.getD (start + j) '.')) then
        (String.mk (l.take d), String.mk (l.drop d))
      else (p, "")
    else (p, "")

/-- `file_name_root = os.path.splitext(uploaded_file.name)[0]` (app.py line 130). -/
def file_name_root (uploadedName : String) : String := (splitext uploadedName).1

/-- Download filename in the PDF branch (app.py line 138). -/
def pdf_file_name (uploadedName : String) : String :=
  file_name_root uploadedName ++ "_processed.pdf"

/-- Download filename in the Word branch (app.py line 148). -/
def docx_file_name (uploadedName : String) : String :=
  file_name_root uploadedName ++ "_processed.docx"

/-- MIME type of the PDF download (app.py line 139). -/
def pdf_mime : String := "application/pdf"

/-- MIME type of the Word download (app.py line 149). -/
def docx_mime : String :=
  "application/vnd.openxmlformats-officedocument.wordprocessingml.document"

/- ## UTF-8 decoding (app.py line 88) -/

/-- Continuation-byte test (0x80-0xBF). -/
def isContByte (b : Nat) : Bool := decide (0x80 ≤ b) && decide (b ≤ 0xBF)

/-- Strict UTF-8 decoding of a byte sequence into code points, as
CPython's `bytes.decode("utf-8")` accepts it: no overlong forms, no
surrogates, nothing above U+10FFFF; `none` models the
`UnicodeDecodeError` raised on invalid input. -/
def utf8Decode : List Nat → Option (List Nat)
  | [] => some []
  | b :: rest =>
    if b ≤ 0x7F then
      (utf8Decode rest).map (fun t => b :: t)
    else if 0xC2 ≤ b ∧ b ≤ 0xDF then
      match rest with
      | b2 :: rest2 =>
        if isContByte b2 then
          (utf8Decode rest2).map (fun t => ((b - 0xC0) * 0x40 + (b2 - 0x80)) :: t)
        else none
      | [] => none
    else if 0xE0 ≤ b ∧ b ≤ 0xEF then
      match rest with
      | b2 :: b3 :: rest3 =>
        if (if b = 0xE0 then decide (0xA0 ≤ b2) && decide (b2 ≤ 0xBF)
            else if b = 0xED then decide (0x80 ≤ b2) && decide (b2 ≤ 0x9F)
            else isContByte b2) && isContByte b3 then
          (utf8Decode rest3).map
            (fun t => ((b - 0xE0) * 0x1000 + (b2 - 0x80) * 0x40 + (b3 - 0x80)) :: t)
        else none
      | [_] => none
      | [] => none
    else if 0xF0 ≤ b ∧ b ≤ 0xF4 then
      match rest with
      | b2 :: b3 :: b4 :: rest4 =>
        if (if b = 0xF0 then decide (0x90 ≤ b2) && decide (b2 ≤ 0xBF)
            else if b = 0xF4 then decide (0x80 ≤ b2) && decide (b2 ≤ 0x8F)
            else isContByte b2) && isContByte b3 && isContByte b4 then
          (utf8Decode rest4).map
            (fun t => ((b - 0xF0) * 0x40000 + (b2 - 0x80) * 0x1000 +
              (b3 - 0x80) * 0x40 + (b4 - 0x80)) :: t)
        else none
      | [_, _] => none
      | [_] => none
      | [] => none
    else none

/-- `string_data = uploaded_file.getvalue().decode("utf-8")` (app.py
line 88): the decoded text as a string, or `none` when decoding raises. -/
def decodeUtf8String (bytes : List Nat) : Option String :=
  (utf8Decode bytes).map (fun cps => String.mk (cps.map Char.ofNat))

/- ## The button-press interaction (app.py lines 86-153) -/

/-- True when some event of the list is a download button. -/
def hasDownload (events : List UIEvent) : Bool :=
  events.any fun e =>
    match e with
    | UIEvent.downloadButton _ _ _ _ => true
    | _ => false

/-- True when some event of the list is the inline error message `msg`. -/
def hasErrorMsg (msg : String) (events : List UIEvent) : Bool :=
  events.any fun e =>
    match e with
    | UIEvent.errorMsg m => m == msg
    | _ => false

/-- Outcome of one button press: the UI events shown, and the final
state of the temporary file used by the Word serialization (`none` if it
never existed or was deleted). -/
structure Outcome where
  events : List UIEvent
  wordTmpFile : Option (List Nat)
deriving DecidableEq, Repr

/-- The body of the "Process File" button (app.py lines 94-153), with
`string_data` already decoded: build the prompt, call the inference
endpoint inside the outer `try` (an exception jumps to the except branch
showing `st.error(f"An error occurred: {e}")`), then on success show the
banner and the preview and, depending on the chosen output format, run
the matching converter and offer a download button only when the
converter's value is truthy (not `None` and not empty bytes). -/
def processClick (o : Oracles) (output_format : String) (mode : String)
    (custom_instruction : String) (uploadedName : String) (string_data : String) :
    Outcome :=
  let prompt := full_prompt mode custom_instruction string_data
  match o.gen prompt with
  | Except.error e =>
      { events := [UIEvent.errorMsg ("An error occurred: " ++ e)], wordTmpFile := none }
  | Except.ok processed_text =>
      let pre := [UIEvent.successMsg "Processing Complete!", UIEvent.preview processed_text]
      if output_format = "PDF" then
        let r := convert_to_pdf o.pdfRender processed_text
        let buttons :=
          match r.1 with
          | some bytes =>
              if bytes = [] then []
              else [UIEvent.downloadButton "Download PDF" bytes
                      (pdf_file_name uploadedName) pdf_mime]
          | none => []
        { events := pre ++ r.2 ++ buttons, wordTmpFile := none }
      else if output_format = "Word Document (.docx)" then
        let w := convert_to_word o.wordSave o.wordRead processed_text
        let buttons :=
          match w.result with
          | some bytes =>
              if bytes = [] then []
              else [UIEvent.downloadButton "Download Word Doc" bytes
                      (docx_file_name uploadedName) docx_mime]
          | none => []
        { events := pre ++ w.events ++ buttons, wordTmpFile := w.tmpFile }
      else
        { events := pre, wordTmpFile := none }

/-- One full interaction on an uploaded file with the button pressed
(app.py lines 86-153): the upload's bytes are decoded as UTF-8 on line
88, OUTSIDE every `try` block — `Except.error` models the resulting
unhandled `UnicodeDecodeError` escaping the script — and only then does
the guarded processing run. -/
def runScript (o : Oracles) (output_format : String) (mode : String)
    (customText : Option String) (uploadedName : String) (uploadedBytes : List Nat) :
    Except String Outcome :=
  match decodeUtf8String uploadedBytes with
  | none => Except.error "UnicodeDecodeError"
  | some string_data =>
      Except.ok (processClick o output_format mode
        (custom_instruction_value mode customText) uploadedName string_data)

/- ## Helper lemmas on lastIndexOf and splitext -/

theorem lastIndexOf_eq_none (pred : Char → Bool) (l : List Char)
    (h : ∀ c ∈ l, pred c = false) : lastIndexOf pred l = none := by
  induction l with
  | nil => rfl
  | cons c cs ih =>
    have hc : pred c = false := h c (List.mem_cons_self c cs)
    have hcs : lastIndexOf pred cs = none :=
      ih (fun x hx => h x (List.mem_cons_of_mem _ hx))
    simp [lastIndexOf, hcs, hc]

theorem lastIndexOf_append_none (pred : Char → Bool) (l1 l2 : List Char)
    (h : lastIndexOf pred l2 = none) :
    lastIndexOf pred (l1 ++ l2) = lastIndexOf pred l1 := by
  induction l1 with
  | nil => simpa using h
  | cons c cs ih => simp only [List.cons_append, lastIndexOf, List.append_eq, ih]

theorem lastIndexOf_append_last (pred : Char → Bool) (l1 l2 : List Char) (c : Char)
    (h2 : lastIndexOf pred l2 = none) (hc : pred c = true) :
    lastIndexOf pred (l1 ++ c :: l2) = some l1.length := by
  induction l1 with
  | nil => simp [lastIndexOf, h2, hc]
  | cons d ds ih => simp [lastIndexOf, ih]

/-- Behaviour of `splitext` on a name of the shape `stem ++ "." ++ ext`
where the extension part has no dot and no separator, the stem has no
separator, and the stem is not made of dots only: the name splits at
that last dot. -/
theorem splitext_stem_ext (stem ext : String)
    (hext : ∀ c ∈ ext.toList, isDot c = false ∧ isSep c = false)
    (hstem : ∀ c ∈ stem.toList, isSep c = false)
    (hnd : ∃ c ∈ stem.toList, isDot c = false) :
    splitext (stem ++ "." ++ ext) = (stem, "." ++ ext) := by
  have hlist : (stem ++ "." ++ ext).toList = stem.toList ++ '.' :: ext.toList := by
    show (stem.toList ++ ['.']) ++ ext.toList = stem.toList ++ '.' :: ext.toList
    simp
  have hdotE : lastIndexOf isDot ext.toList = none :=
    lastIndexOf_eq_none _ _ (fun c hc => (hext c hc).1)
  have hdot : lastIndexOf isDot (stem.toList ++ '.' :: ext.toList) =
      some stem.toList.length :=
    lastIndexOf_append_last _ _ _ _ hdotE (by simp [isDot])
  have hsep : lastIndexOf isSep (stem.toList ++ '.' :: ext.toList) = none := by
    apply lastIndexOf_eq_none
    intro c hc
    rcases List.mem_append.mp hc with hc1 | hc2
    · exact hstem c hc1
    · rcases List.mem_cons.mp hc2 with rfl | hc3
      · rfl
      · exact (hext c hc3).2
  obtain ⟨c, hcmem, hcdot⟩ := hnd
  obtain ⟨i, hi, hieq⟩ := List.mem_iff_getElem.mp hcmem
  have hany : (List.range (stem.toList.length - 0)).any
      (fun j => !isDot ((stem.toList ++ '.' :: ext.toList).getD (0 + j) '.')) = true := by
    refine List.any_eq_true.mpr ⟨i, List.mem_range.mpr (by omega), ?_⟩
    have h1 : (stem.toList ++ '.' :: ext.toList).getD (0 + i) '.' = stem.toList.getD i '.' := by
      simpa using List.getD_append stem.toList ('.' :: ext.toList) '.' i hi
    rw [h1, List.getD_eq_getElem stem.toList '.' hi, hieq, hcdot]
    rfl
  unfold splitext
  simp only [hlist, hdot, hsep]
  rw [if_pos (Nat.zero_le _), if_pos hany, List.take_left, List.drop_left]
  exact rfl

/- ## Claim theorems -/

/-- C1: for every processing mode, the constructed prompt is the
instruction segment (the mode's fixed template for the canned modes, the
user's text verbatim in "Custom Instruction" mode), then a newline, then
the fixed HTML-only directive, then the document text appended verbatim
after the "CONTENT:" marker; in particular the instruction segment for
"Custom Instruction" with text "Translate to Spanish" is exactly that
string. -/
theorem c1_prompt_is_instruction_directive_content (mode : String)
    (hmode : mode ∈ modeOptions) (ci doc : String) :
    full_prompt mode ci doc =
      instruction_segment mode ci ++ "\n" ++ html_directive ++ "\n\nCONTENT:\n" ++ doc ∧
    instruction_segment "Custom Instruction" "Translate to Spanish" =
      "Translate to Spanish" := by
  refine ⟨?_, rfl⟩
  simp only [modeOptions, List.mem_cons, List.not_mem_nil, or_false] at hmode
  rcases hmode with rfl | rfl | rfl | rfl <;> rfl

theorem c1_witness :
    ("Custom Instruction" ∈ modeOptions) ∧
    full_prompt "Custom Instruction" "Translate to Spanish" "<p>doc</p>" =
      instruction_segment "Custom Instruction" "Translate to Spanish" ++ "\n" ++
        html_directive ++ "\n\nCONTENT:\n" ++ "<p>doc</p>" :=
  ⟨by simp [modeOptions],
   (c1_prompt_is_instruction_directive_content "Custom Instruction"
     (by simp [modeOptions]) "Translate to Spanish" "<p>doc</p>").1⟩

/-- C2: for every reply, the Word document built by `convert_to_word`
consists of a heading element plus exactly one paragraph whose text is
the literal reply with its HTML unparsed; in particular the reply
"<h3>Title</h3><p>Body</p>" gives exactly one paragraph holding that
literal string, tags included. -/
theorem c2_word_document_literal_paragraph (reply : String) :
    (∃ t l, DocxBlock.heading t l ∈ docxOf reply) ∧
    paragraphTexts (docxOf reply) = [reply] ∧
    paragraphTexts (docxOf "<h3>Title</h3><p>Body</p>") =
      ["<h3>Title</h3><p>Body</p>"] ∧
    (∃ t l, DocxBlock.heading t l ∈ docxOf "<h3>Title</h3><p>Body</p>") :=
  ⟨⟨"Gemini Processed Report", 0, List.mem_cons_self _ _⟩, rfl, rfl,
   ⟨"Gemini Processed Report", 0, List.mem_cons_self _ _⟩⟩

/-- C6: whenever `convert_to_word` succeeds (returns bytes rather than
`None`), the temporary file it created has been deleted by the time it
returns, and the returned bytes are exactly the serialized document that
`doc.save` wrote to that file. -/
theorem c6_word_success_deletes_tmpfile (save read : Except String Unit)
    (content : String) (bytes : List Nat)
    (h : (convert_to_word save read content).result = some bytes) :
    (convert_to_word save read content).tmpFile = none ∧
    bytes = serializeDocx (docxOf content) := by
  cases save with
  | error e => simp [convert_to_word] at h
  | ok u =>
    cases read with
    | error e => simp [convert_to_word] at h
    | ok u2 =>
      simp only [convert_to_word, Option.some.injEq] at h
      exact ⟨rfl, h.symm⟩

theorem c6_witness :
    (convert_to_word (Except.ok ()) (Except.ok ()) "x").tmpFile = none ∧
    serializeDocx (docxOf "x") = serializeDocx (docxOf "x") :=
  c6_word_success_deletes_tmpfile (Except.ok ()) (Except.ok ()) "x"
    (serializeDocx (docxOf "x")) rfl

/-- C7: `convert_to_word` has no cleanup on its failure paths: if the
read step raises after the temporary file is created (and likewise if
the save step raises), the unlink is never reached, the temporary file
remains on disk, and the exception is still caught and surfaced as an
inline "Word Error" message with `None` returned. -/
theorem c7_word_failure_leaks_tmpfile (content e : String) :
    (let w := convert_to_word (Except.ok ()) (Except.error e) content
     w.result = none ∧ w.tmpFile = some (serializeDocx (docxOf content)) ∧
       w.events = [UIEvent.errorMsg ("Word Error: " ++ e)]) ∧
    (let w := convert_to_word (Except.error e) (Except.ok ()) content
     w.result = none ∧ w.tmpFile = some [] ∧
       w.events = [UIEvent.errorMsg ("Word Error: " ++ e)]) :=
  ⟨⟨rfl, rfl, rfl⟩, ⟨rfl, rfl, rfl⟩⟩

/-- C9: in "Custom Instruction" mode the text area is pre-filled with
the literal default "E.g., Translate to Spanish...", which becomes the
instruction segment of the prompt when the user does not edit it; in
every non-custom mode the custom text is reset to the empty string and
the prompt is independent of whatever the user may have typed. -/
theorem c9_custom_default_and_reset :
    custom_instruction_value "Custom Instruction" none =
      "E.g., Translate to Spanish..." ∧
    (∀ doc, full_prompt "Custom Instruction"
        (custom_instruction_value "Custom Instruction" none) doc =
      "E.g., Translate to Spanish..." ++ "\n" ++ html_directive ++
        "\n\nCONTENT:\n" ++ doc) ∧
    (∀ mode, mode ∈ ["Summarize Content", "Clean & Format", "Extract Key Data"] →
      ∀ (u u2 : Option String) (doc : String),
        custom_instruction_value mode u = "" ∧
        full_prompt mode (custom_instruction_value mode u) doc =
          full_prompt mode (custom_instruction_value mode u2) doc ∧
        full_prompt mode (custom_instruction_value mode u) doc =
          instruction_segment mode "" ++ "\n" ++ html_directive ++
            "\n\nCONTENT:\n" ++ doc) := by
  refine ⟨rfl, fun doc => rfl, ?_⟩
  intro mode hm u u2 doc
  simp only [List.mem_cons, List.not_mem_nil, or_false] at hm
  rcases hm with rfl | rfl | rfl <;> exact ⟨rfl, rfl, rfl⟩

theorem c9_witness :
    custom_instruction_value "Summarize Content" (some "ignored text") = "" :=
  (c9_custom_default_and_reset.2.2 "Summarize Content" (by simp)
    (some "ignored text") none "doc").1

/-- C10: the heading of every generated Word document is the fixed
literal "Gemini Processed Report" — the heading texts of the document
built for any reply equal that constant list, independent of the reply
(and the document builder takes no filename at all). -/
theorem c10_heading_is_fixed_literal (reply : String) :
    headingTexts (docxOf reply) = ["Gemini Processed Report"] ∧
    DocxBlock.heading "Gemini Processed Report" 0 ∈ docxOf reply :=
  ⟨rfl, List.mem_cons_self _ _⟩

/-- C8: if the uploaded bytes are not valid UTF-8, the decode on app.py
line 88 — which sits outside every try/except block — raises an
unhandled decode failure: the whole interaction ends in `Except.error`,
never an inline error message, whatever the oracles and settings. -/
theorem c8_invalid_utf8_unhandled (o : Oracles) (output_format mode : String)
    (customText : Option String) (uploadedName : String) (uploadedBytes : List Nat)
    (h : utf8Decode uploadedBytes = none) :
    runScript o output_format mode customText uploadedName uploadedBytes =
      Except.error "UnicodeDecodeError" := by
  simp [runScript, decodeUtf8String, h]

def oracles_c8 : Oracles :=
  ⟨fun _ => Except.ok "reply", fun _ => Except.ok [1], Except.ok (), Except.ok ()⟩

theorem c8_witness :
    runScript oracles_c8 "PDF" "Summarize Content" none "report.html" [255] =
      Except.error "UnicodeDecodeError" :=
  c8_invalid_utf8_unhandled oracles_c8 "PDF" "Summarize Content" none
    "report.html" [255] rfl

/-- C3: on any upload that decodes, the interaction never ends in an
unhandled exception; each external call is individually guarded: a
raising inference call yields exactly the inline "An error occurred"
message with no further output, a raising PDF render yields an inline
"PDF Error" message with the download omitted, and a raising save or
read step of the Word serialization yields an inline "Word Error"
message with the download omitted — one attempt each, no retry and no
partial result. -/
theorem c3_external_calls_individually_guarded (o : Oracles)
    (output_format mode : String) (customText : Option String)
    (uploadedName : String) (uploadedBytes : List Nat) (s : String)
    (hdec : decodeUtf8String uploadedBytes = some s) :
    (∃ out, runScript o output_format mode customText uploadedName uploadedBytes =
      Except.ok out) ∧
    (∀ e, o.gen (full_prompt mode (custom_instruction_value mode customText) s) =
        Except.error e →
      runScript o output_format mode customText uploadedName uploadedBytes =
        Except.ok { events := [UIEvent.errorMsg ("An error occurred: " ++ e)],
                    wordTmpFile := none }) ∧
    (∀ reply e,
      o.gen (full_prompt mode (custom_instruction_value mode customText) s) =
        Except.ok reply →
      output_format = "PDF" →
      o.pdfRender (pdfHtmlWrapper reply) = Except.error e →
      ∃ out, runScript o output_format mode customText uploadedName uploadedBytes =
          Except.ok out ∧
        hasErrorMsg ("PDF Error: " ++ e) out.events = true ∧
        hasDownload out.events = false) ∧
    (∀ reply e,
      o.gen (full_prompt mode (custom_instruction_value mode customText) s) =
        Except.ok reply →
      output_format = "Word Document (.docx)" →
      (o.wordSave = Except.error e ∨
        (o.wordSave = Except.ok () ∧ o.wordRead = Except.error e)) →
      ∃ out, runScript o output_format mode customText uploadedName uploadedBytes =
          Except.ok out ∧
        hasErrorMsg ("Word Error: " ++ e) out.events = true ∧
        hasDownload out.events = false) := by
  have hrun : runScript o output_format mode customText uploadedName uploadedBytes =
      Except.ok (processClick o output_format mode
        (custom_instruction_value mode customText) uploadedName s) := by
    simp [runScript, hdec]
  refine ⟨⟨_, hrun⟩, ?_, ?_, ?_⟩
  · intro e hg
    rw [hrun]
    simp [processClick, hg]
  · intro reply e hg hfmt hr
    subst hfmt
    refine ⟨_, hrun, ?_, ?_⟩ <;>
      simp [processClick, hg, convert_to_pdf, hr, hasErrorMsg, hasDownload]
  · intro reply e hg hfmt hw
    subst hfmt
    refine ⟨_, hrun, ?_, ?_⟩ <;>
      rcases hw with hs | ⟨hs, hr⟩ <;>
        simp [processClick, hg, convert_to_word, hs, hasErrorMsg, hasDownload] <;>
          simp [hr]

def oracles_c3 : Oracles :=
  ⟨fun _ => Except.error "network down", fun _ => Except.error "no binary",
   Except.ok (), Except.error "read failed"⟩

theorem c3_witness :
    runScript oracles_c3 "PDF" "Summarize Content" none "report.html" [104] =
      Except.ok { events := [UIEvent.errorMsg ("An error occurred: " ++ "network down")],
                  wordTmpFile := none } :=
  (c3_external_calls_individually_guarded oracles_c3 "PDF" "Summarize Content"
    none "report.html" [104] "h" rfl).2.1 "network down" rfl

/-- C4: if PDF serialization fails (the renderer raises), the
interaction shows an inline "PDF Error" message, offers no download
button, and raises no unhandled fault (the interaction still ends in
`Except.ok`); conversely a PDF download button is offered only when the
renderer returned data (truthy, i.e. non-empty, bytes). -/
theorem c4_pdf_failure_no_download (o : Oracles)
    (mode ci uploadedName s reply e : String)
    (hg : o.gen (full_prompt mode ci s) = Except.ok reply)
    (hr : o.pdfRender (pdfHtmlWrapper reply) = Except.error e) :
    hasDownload (processClick o "PDF" mode ci uploadedName s).events = false ∧
    hasErrorMsg ("PDF Error: " ++ e)
      (processClick o "PDF" mode ci uploadedName s).events = true ∧
    (∀ (customText : Option String) (uploadedBytes : List Nat),
      decodeUtf8String uploadedBytes = some s →
      ci = custom_instruction_value mode customText →
      runScript o "PDF" mode customText uploadedName uploadedBytes =
        Except.ok (processClick o "PDF" mode ci uploadedName s)) ∧
    (∀ (o2 : Oracles) (reply2 : String),
      o2.gen (full_prompt mode ci s) = Except.ok reply2 →
      hasDownload (processClick o2 "PDF" mode ci uploadedName s).events = true →
      ∃ bs, o2.pdfRender (pdfHtmlWrapper reply2) = Except.ok bs ∧ bs ≠ []) := by
  refine ⟨?_, ?_, ?_, ?_⟩
  · simp [processClick, hg, convert_to_pdf, hr, hasDownload]
  · simp [processClick, hg, convert_to_pdf, hr, hasErrorMsg]
  · intro customText uploadedBytes hdec hci
    subst hci
    simp [runScript, hdec]
  · intro o2 reply2 hg2 hbtn
    cases hrr : o2.pdfRender (pdfHtmlWrapper reply2) with
    | error e2 =>
      exfalso
      simp [processClick, hg2, convert_to_pdf, hrr, hasDownload] at hbtn
    | ok bs =>
      by_cases hbs : bs = []
      · exfalso
        subst hbs
        simp [processClick, hg2, convert_to_pdf, hrr, hasDownload] at hbtn
      · exact ⟨bs, rfl, hbs⟩

def oracles_c4 : Oracles :=
  ⟨fun _ => Except.ok "<h3>R</h3>", fun _ => Except.error "wkhtmltopdf not found",
   Except.ok (), Except.ok ()⟩

theorem c4_witness :
    hasDownload (processClick oracles_c4 "PDF" "Summarize Content" ""
      "report.html" "doc").events = false :=
  (c4_pdf_failure_no_download oracles_c4 "Summarize Content" "" "report.html"
    "doc" "<h3>R</h3>" "wkhtmltopdf not found" rfl rfl).1

/-- C5: for an uploaded name of the form `stem.ext` (extension free of
dots and separators, stem not all dots), the offered download filename
is the stem with "_processed.pdf" appended under MIME application/pdf
when PDF is selected, or "_processed.docx" appended under the Word MIME
type when Word is selected — as the download-button events of a
successful interaction show. -/
theorem c5_download_filenames (stem ext : String)
    (hext : ∀ c ∈ ext.toList, isDot c = false ∧ isSep c = false)
    (hstem : ∀ c ∈ stem.toList, isSep c = false)
    (hnd : ∃ c ∈ stem.toList, isDot c = false) :
    file_name_root (stem ++ "." ++ ext) = stem ∧
    pdf_file_name (stem ++ "." ++ ext) = stem ++ "_processed.pdf" ∧
    docx_file_name (stem ++ "." ++ ext) = stem ++ "_processed.docx" ∧
    (∀ (o : Oracles) (mode ci s reply : String) (bs : List Nat),
      o.gen (full_prompt mode ci s) = Except.ok reply →
      o.pdfRender (pdfHtmlWrapper reply) = Except.ok bs → bs ≠ [] →
      (processClick o "PDF" mode ci (stem ++ "." ++ ext) s).events =
        [UIEvent.successMsg "Processing Complete!", UIEvent.preview reply,
         UIEvent.downloadButton "Download PDF" bs (stem ++ "_processed.pdf")
           "application/pdf"]) ∧
    (∀ (o : Oracles) (mode ci s reply : String),
      o.gen (full_prompt mode ci s) = Except.ok reply →
      o.wordSave = Except.ok () → o.wordRead = Except.ok () →
      (processClick o "Word Document (.docx)" mode ci (stem ++ "." ++ ext) s).events =
        [UIEvent.successMsg "Processing Complete!", UIEvent.preview reply,
         UIEvent.downloadButton "Download Word Doc" (serializeDocx (docxOf reply))
           (stem ++ "_processed.docx")
           "application/vnd.openxmlformats-officedocument.wordprocessingml.document"]) := by
  have hroot : file_name_root (stem ++ "." ++ ext) = stem := by
    unfold file_name_root
    rw [splitext_stem_ext stem ext hext hstem hnd]
  refine ⟨hroot, ?_, ?_, ?_, ?_⟩
  · unfold pdf_file_name
    rw [hroot]
  · unfold docx_file_name
    rw [hroot]
  · intro o mode ci s reply bs hg hr hbs
    simp [processClick, hg, convert_to_pdf, hr, hbs, pdf_file_name, hroot, pdf_mime]
  · intro o mode ci s reply hg hsv hrd
    have hne : serializeDocx (docxOf reply) ≠ [] := by simp [serializeDocx]
    simp [processClick, hg, convert_to_word, hsv, hrd, hne, docx_file_name,
      hroot, docx_mime]

def oracles_c5 : Oracles :=
  ⟨fun _ => Except.ok "<h3>R</h3>", fun _ => Except.ok [7], Except.ok (), Except.ok ()⟩

theorem c5_witness :
    pdf_file_name ("report" ++ "." ++ "html") = "report" ++ "_processed.pdf" ∧
    docx_file_name ("report" ++ "." ++ "html") = "report" ++ "_processed.docx" ∧
    (processClick oracles_c5 "PDF" "Summarize Content" "" ("report" ++ "." ++ "html")
        "doc").events =
      [UIEvent.successMsg "Processing Complete!", UIEvent.preview "<h3>R</h3>",
       UIEvent.downloadButton "Download PDF" [7] ("report" ++ "_processed.pdf")
         "application/pdf"] := by
  have h := c5_download_filenames "report" "html" (by decide) (by decide) (by decide)
  exact ⟨h.2.1, h.2.2.1,
    h.2.2.2.1 oracles_c5 "Summarize Content" "" "doc" "<h3>R</h3>" [7] rfl rfl
      (by decide)⟩
